import Mathlib

/-
Verification of the assets-management backend (Django app) against its
natural-language specification.

Shallow embedding conventions:
- Python Decimal values are modelled as exact rationals (ℚ).
- Nullable columns are modelled as Option values.
- Python truthiness on Optional[Decimal] / Optional[str] is modelled by
  the truthyQ / truthyStr functions (None and zero / empty are falsy).
- datetimes are modelled as integer timestamps (ℤ); "timezone.now()" is an
  explicit parameter.
- A method raising ValidationError is modelled as a function into Except.
-/

deriving instance DecidableEq for Except

namespace AssetsMgmt

/-- Python truthiness of an Optional[Decimal]: None and 0 are falsy. -/
def truthyQ : Option ℚ → Bool
  | none => false
  | some x => decide (x ≠ 0)

/-- Python truthiness of an Optional[str]: None and the empty string are falsy. -/
def truthyStr : Option String → Bool
  | none => false
  | some s => decide (s ≠ "")

/-- Embedding of assets.models.Asset (fields relevant to the claims;
Decimal fields as ℚ, nullable fields as Option, datetimes as ℤ). -/
structure Asset where
  id : ℕ
  created_at : ℤ
  updated_at : ℤ
  is_active : Bool
  name : String
  symbol : String
  asset_type : String
  category : Option ℕ
  description : String
  company_name : String
  website_url : String
  current_price : ℚ
  currency : String
  market_cap : Option ℚ
  risk_level : String
  beta : Option ℚ
  dividend_yield : Option ℚ
  status : String
  exchange : String
  isin : Option String
  price_last_updated : Option ℤ
  day_high : Option ℚ
  day_low : Option ℚ
deriving Repr, DecidableEq

/-- The two ValidationError cases of Asset.clean. -/
inductive AssetCleanError where
  | dayHighLessThanDayLow
  | isinLength
deriving Repr, DecidableEq

/-- Embedding of Asset.clean (src/assets/models.py:261-269).
Mirrors the Python conditions, including truthiness:
`if self.day_high and self.day_low and self.day_high < self.day_low` and
`if self.isin and len(self.isin) != 12`. -/
def Asset.clean (a : Asset) : Except AssetCleanError Unit :=
  if truthyQ a.day_high && truthyQ a.day_low
      && decide (a.day_high.getD 0 < a.day_low.getD 0) then
    Except.error AssetCleanError.dayHighLessThanDayLow
  else if truthyStr a.isin && decide ((a.isin.getD "").length ≠ 12) then
    Except.error AssetCleanError.isinLength
  else
    Except.ok ()

/-- Embedding of Asset.update_price (src/assets/models.py:271-284), the
in-memory mutation before save: sets current_price and price_last_updated
and, when update_high_low, maintains day_high / day_low with Python
truthiness (`if not self.day_high or new_price > self.day_high`, likewise
for day_low). -/
def Asset.update_price (a : Asset) (new_price : ℚ) (now : ℤ)
    (update_high_low : Bool) : Asset :=
  let a1 := { a with current_price := new_price, price_last_updated := some now }
  if update_high_low then
    let a2 :=
      if !truthyQ a1.day_high || decide (a1.day_high.getD 0 < new_price) then
        { a1 with day_high := some new_price }
      else a1
    if !truthyQ a2.day_low || decide (new_price < a2.day_low.getD 0) then
      { a2 with day_low := some new_price }
    else a2
  else a1

/-- Embedding of `self.save(update_fields=['current_price',
'price_last_updated', 'day_high', 'day_low'])`: only those four fields of
the in-memory object `mem` are persisted over the stored row. -/
def Asset.savePriceFields (stored mem : Asset) : Asset :=
  { stored with
    current_price := mem.current_price
    price_last_updated := mem.price_last_updated
    day_high := mem.day_high
    day_low := mem.day_low }

/-- The full effect of Asset.update_price(new_price, update_high_low=True)
on the stored row: mutate in memory, then persist the four listed fields. -/
def Asset.updatePriceAndSave (a : Asset) (new_price : ℚ) (now : ℤ) : Asset :=
  Asset.savePriceFields a (Asset.update_price a new_price now true)

/-- Embedding of assets.models.AssetCategory (fields relevant to the
claims). Django model equality compares primary keys, so the
self-referential parent is modelled by the parent's id. -/
structure AssetCategory where
  id : ℕ
  name : String
  description : String
  parent : Option ℕ
  icon : String
  color : String
  is_active : Bool
deriving Repr, DecidableEq

/-- Embedding of AssetCategory.clean (src/assets/models.py:62-65):
`if self.parent == self: raise ValidationError(...)`. Model equality is
primary-key equality; a None parent is never equal to self. -/
def AssetCategory.clean (c : AssetCategory) : Except String Unit :=
  if c.parent = some c.id then
    Except.error "Category cannot be its own parent"
  else
    Except.ok ()

/-- Embedding of assets.models.Transaction (fields relevant to the claims).
total_amount is Option ℚ: it is unset (None) until supplied or computed by
save. -/
structure Transaction where
  id : ℕ
  created_at : ℤ
  updated_at : ℤ
  is_active : Bool
  user : ℕ
  asset : ℕ
  transaction_type : String
  quantity : ℚ
  price_per_unit : ℚ
  total_amount : Option ℚ
  fees : ℚ
  tax : ℚ
  order_type : String
  limit_price : Option ℚ
  stop_price : Option ℚ
  status : String
  transaction_date : ℤ
  settlement_date : Option ℤ
  notes : String
  external_id : String
  broker : String
deriving Repr, DecidableEq

/-- The ValidationError cases of Transaction.clean. -/
inductive TxnCleanError where
  | limitPriceRequired
  | stopPriceRequired
  | futureDate
deriving Repr, DecidableEq

/-- Embedding of Transaction.clean (src/assets/models.py:470-483).
Mirrors the Python checks in order, including truthiness of the optional
prices (`not self.limit_price`, `not self.stop_price`) and the strict
comparison `self.transaction_date > timezone.now()`. -/
def Transaction.clean (t : Transaction) (now : ℤ) : Except TxnCleanError Unit :=
  if (t.order_type == "LIMIT" || t.order_type == "STOP_LIMIT")
      && !truthyQ t.limit_price then
    Except.error TxnCleanError.limitPriceRequired
  else if (t.order_type == "STOP" || t.order_type == "STOP_LIMIT")
      && !truthyQ t.stop_price then
    Except.error TxnCleanError.stopPriceRequired
  else if decide (now < t.transaction_date) then
    Except.error TxnCleanError.futureDate
  else
    Except.ok ()

/-- Embedding of Transaction.save (src/assets/models.py:485-491): when
total_amount is falsy (unset or zero), it is computed as
quantity * price_per_unit + fees + tax before the row is written. -/
def Transaction.save (t : Transaction) : Transaction :=
  if truthyQ t.total_amount then t
  else
    { t with total_amount := some (t.quantity * t.price_per_unit + t.fees + t.tax) }

/-- The writable fields of TransactionCreateSerializer
(src/assets/serializers.py:247-258): the API create endpoint accepts
exactly these; total_amount is not among them. -/
structure TxnCreateInput where
  asset : ℕ
  transaction_type : String
  quantity : ℚ
  price_per_unit : ℚ
  fees : ℚ
  tax : ℚ
  order_type : String
  limit_price : Option ℚ
  stop_price : Option ℚ
  notes : String
  broker : String
deriving Repr, DecidableEq

/-- The validation errors of TransactionCreateSerializer. -/
inductive TxnCreateError where
  | quantityNotPositive
  | pricePerUnitNotPositive
deriving Repr, DecidableEq

/-- Embedding of the API transaction-create pipeline
(TransactionViewSet.create with TransactionCreateSerializer,
src/assets/serializers.py:247-282): run validate_quantity and
validate_price_per_unit; on success build the model instance (user taken
from the request, transaction_date defaulted to now, total_amount unset)
and run Transaction.save, which computes total_amount. The returned
Except is the created row, or the validation error when none is created. -/
def TransactionCreateSerializer.run (input : TxnCreateInput) (userId : ℕ)
    (now : ℤ) : Except TxnCreateError Transaction :=
  if decide (input.quantity ≤ 0) then
    Except.error TxnCreateError.quantityNotPositive
  else if decide (input.price_per_unit ≤ 0) then
    Except.error TxnCreateError.pricePerUnitNotPositive
  else
    Except.ok (Transaction.save
      { id := 0
        created_at := now
        updated_at := now
        is_active := true
        user := userId
        asset := input.asset
        transaction_type := input.transaction_type
        quantity := input.quantity
        price_per_unit := input.price_per_unit
        total_amount := none
        fees := input.fees
        tax := input.tax
        order_type := input.order_type
        limit_price := input.limit_price
        stop_price := input.stop_price
        status := "PENDING"
        transaction_date := now
        settlement_date := none
        notes := input.notes
        external_id := ""
        broker := input.broker })

/-- The Django `Sum('total_amount')` aggregate followed by
`or Decimal('0')`: sum of the stored total_amount values (a stored row
always has one; getD 0 covers the Option type of the embedding). -/
def aggSumTotal (l : List Transaction) : ℚ :=
  (l.map fun t => t.total_amount.getD 0).sum

/-- The summary block built by TransactionViewSet.summary
(src/assets/views.py:572-618). -/
structure TxnSummary where
  total_transactions : ℕ
  total_volume : ℚ
  buy_volume : ℚ
  sell_volume : ℚ
  net_volume : ℚ
  pending_transactions : ℕ
deriving Repr, DecidableEq

/-- Embedding of TransactionViewSet.summary (src/assets/views.py:572-618):
filter the table to the requesting user's active transactions, restrict to
COMPLETED, and aggregate, mirroring the successive queryset filters. -/
def transactionSummary (db : List Transaction) (userId : ℕ) : TxnSummary :=
  let user_transactions := db.filter fun t => t.user == userId && t.is_active
  let completed := user_transactions.filter fun t => t.status == "COMPLETED"
  { total_transactions := completed.length
    total_volume := aggSumTotal completed
    buy_volume := aggSumTotal (completed.filter fun t => t.transaction_type == "BUY")
    sell_volume := aggSumTotal (completed.filter fun t => t.transaction_type == "SELL")
    net_volume :=
      aggSumTotal (completed.filter fun t => t.transaction_type == "BUY")
        - aggSumTotal (completed.filter fun t => t.transaction_type == "SELL")
    pending_transactions :=
      (user_transactions.filter fun t => t.status == "PENDING").length }

/-- An exception, identified by the module of its type and its message
(core.middleware inspects `type(exception).__module__`). -/
structure Exc where
  module : String
  message : String
deriving Repr, DecidableEq

/-- Whether `n` is an initial segment of `l` (on characters). -/
def charsStartWith : List Char → List Char → Bool
  | [], _ => true
  | _ :: _, [] => false
  | c :: cs, d :: ds => c == d && charsStartWith cs ds

/-- Whether `n` occurs contiguously inside `l` (on characters). -/
def charsContainSeg (n : List Char) : List Char → Bool
  | [] => n.isEmpty
  | d :: ds => charsStartWith n (d :: ds) || charsContainSeg n ds

/-- `'rest_framework' in str(type(exception).__module__)`: the Python
substring test, implemented structurally on the character list. -/
def excIsRestFramework (e : Exc) : Bool :=
  charsContainSeg "rest_framework".toList e.module.toList

/-- A JSON HTTP response: status code and the error field of the body
(none when the request succeeded). -/
structure HttpResponse where
  status : ℕ
  error : Option String
deriving Repr, DecidableEq

/-- Embedding of ErrorHandlingMiddleware.process_exception
(src/core/middleware.py:50-67): rest_framework exceptions are passed
through (no log line, no response); any other exception is logged and
answered with a generic 500. Returns the emitted log lines and the
response, if any. -/
def ErrorHandlingMiddleware.process_exception (e : Exc) :
    List String × Option HttpResponse :=
  if excIsRestFramework e then
    ([], none)
  else
    (["Unhandled exception: " ++ e.message],
      some { status := 500, error := some "An unexpected error occurred" })

/-- Embedding of TransactionViewSet.create (src/assets/views.py:534-556):
the serializer is validated and saved inside a `try` whose
`except Exception` returns a 400 response; `dbFailure` models an exception
raised by serializer.save() (for example a database error). On success
the endpoint returns 201. -/
def TransactionViewSet.create (input : TxnCreateInput) (userId : ℕ)
    (now : ℤ) (dbFailure : Option Exc) : HttpResponse :=
  match TransactionCreateSerializer.run input userId now with
  | Except.error _ => { status := 400, error := some "Failed to record transaction" }
  | Except.ok _ =>
    match dbFailure with
    | some _ => { status := 400, error := some "Failed to record transaction" }
    | none => { status := 201, error := none }

/-- The seven graph types known to AnalyticsViewSet.graphs
(src/assets/views.py:946-966). -/
def knownGraphTypes : List String :=
  ["user_growth", "asset_distribution", "transaction_volume",
   "portfolio_performance", "asset_type_performance", "top_assets",
   "transaction_trends"]

/-- The outputs of the seven graph-data helpers of assets.utils, abstract
in their payload type: the graphs endpoint only routes them. -/
structure GraphOutputs (α : Type) where
  user_growth : α
  asset_distribution : α
  transaction_volume : α
  portfolio_performance : α
  asset_type_performance : α
  top_assets : α
  transaction_trends : α
deriving Repr, DecidableEq

/-- The body of a response of the graphs endpoint: the graph data present
in the JSON (keyed by graph name), the summary block when present, and
the error message when present. -/
structure GraphsBody (α σ : Type) where
  data : List (String × α)
  summary : Option σ
  error : Option String
deriving Repr, DecidableEq

/-- Embedding of AnalyticsViewSet.graphs (src/assets/views.py:920-1011)
for an integer days parameter: validate days, then route on graph_type
(Python truthiness: an absent or empty graph_type selects all graphs),
and attach the summary block to every 200 response. Returns the status
code and the body. -/
def AnalyticsViewSet.graphs {α σ : Type} (days : ℤ)
    (graph_type : Option String) (g : GraphOutputs α) (summ : σ) :
    ℕ × GraphsBody α σ :=
  let ok : List (String × α) → ℕ × GraphsBody α σ :=
    fun d => (200, { data := d, summary := some summ, error := none })
  if days < 1 ∨ 365 < days then
    (400, { data := [], summary := none,
            error := some "Days parameter must be between 1 and 365" })
  else
    let gt := graph_type.getD ""
    if gt ≠ "" then
      if gt = "user_growth" then ok [(gt, g.user_growth)]
      else if gt = "asset_distribution" then ok [(gt, g.asset_distribution)]
      else if gt = "transaction_volume" then ok [(gt, g.transaction_volume)]
      else if gt = "portfolio_performance" then ok [(gt, g.portfolio_performance)]
      else if gt = "asset_type_performance" then ok [(gt, g.asset_type_performance)]
      else if gt = "top_assets" then ok [(gt, g.top_assets)]
      else if gt = "transaction_trends" then ok [(gt, g.transaction_trends)]
      else
        (400, { data := [], summary := none,
                error := some ("Unknown graph type: " ++ gt) })
    else
      ok [("user_growth", g.user_growth),
          ("asset_distribution", g.asset_distribution),
          ("transaction_volume", g.transaction_volume),
          ("portfolio_performance", g.portfolio_performance),
          ("asset_type_performance", g.asset_type_performance),
          ("top_assets", g.top_assets),
          ("transaction_trends", g.transaction_trends)]

/-- Selection of one helper output by graph name, written from the spec
side ("the requested graph data"): the name-to-data mapping the routing
in the endpoint is expected to implement. -/
def selectGraph {α : Type} (t : String) (g : GraphOutputs α) : Option α :=
  if t = "user_growth" then some g.user_growth
  else if t = "asset_distribution" then some g.asset_distribution
  else if t = "transaction_volume" then some g.transaction_volume
  else if t = "portfolio_performance" then some g.portfolio_performance
  else if t = "asset_type_performance" then some g.asset_type_performance
  else if t = "top_assets" then some g.top_assets
  else if t = "transaction_trends" then some g.transaction_trends
  else none

/-! Helper lemmas. -/

/-- Two successive filters equal one filter by the conjunction, in
application order. -/
theorem filter_filter_swap {α : Type} (P Q : α → Bool) (l : List α) :
    (l.filter P).filter Q = l.filter fun a => P a && Q a := by
  rw [List.filter_filter]
  exact List.filter_congr fun a _ => Bool.and_comm (Q a) (P a)

/-- Under the MinValueValidator(0.01) of the optional price fields, Python
falsiness coincides with absence. -/
theorem truthyQ_false_iff {o : Option ℚ}
    (hv : ∀ x : ℚ, o = some x → 1 / 100 ≤ x) :
    truthyQ o = false ↔ o = none := by
  cases o with
  | none => simp [truthyQ]
  | some x =>
    have hx : (1 : ℚ) / 100 ≤ x := hv x rfl
    have hx0 : x ≠ 0 := by
      intro h0
      rw [h0] at hx
      norm_num at hx
    simp [truthyQ, hx0]

/-! Concrete inputs used by witnesses and counterexamples. -/

/-- A transaction-create request: 2 units at price 10 with fee 1. -/
def txnInC1 : TxnCreateInput :=
  { asset := 1, transaction_type := "BUY", quantity := 2, price_per_unit := 10,
    fees := 1, tax := 0, order_type := "MARKET", limit_price := none,
    stop_price := none, notes := "", broker := "" }

/-- The row the create pipeline stores for txnInC1 (user 1, time 0);
its total_amount is 2 * 10 + 1 + 0 = 21. -/
def txnOutC1 : Transaction :=
  { id := 0, created_at := 0, updated_at := 0, is_active := true, user := 1,
    asset := 1, transaction_type := "BUY", quantity := 2, price_per_unit := 10,
    total_amount := some (2 * 10 + 1 + 0), fees := 1, tax := 0, order_type := "MARKET",
    limit_price := none, stop_price := none, status := "PENDING",
    transaction_date := 0, settlement_date := none, notes := "",
    external_id := "", broker := "" }

/-- An asset whose day_high is the (set) value 0 and whose day_low is 1. -/
def assetC2 : Asset :=
  { id := 0, created_at := 0, updated_at := 0, is_active := true,
    name := "Zero High", symbol := "ZH", asset_type := "STOCK",
    category := none, description := "", company_name := "",
    website_url := "", current_price := 1, currency := "USD",
    market_cap := none, risk_level := "MEDIUM", beta := none,
    dividend_yield := none, status := "ACTIVE", exchange := "", isin := none,
    price_last_updated := none, day_high := some 0, day_low := some 1 }

/-- The same asset with nonzero day_high 1 below day_low 2. -/
def assetC2w : Asset :=
  { assetC2 with day_high := some 1, day_low := some 2 }

/-- A transaction-create request with quantity 0. -/
def txnInC5 : TxnCreateInput :=
  { txnInC1 with quantity := 0 }

/-! Claims. -/

/-- C1: for every transaction created through the API create pipeline
(which never carries a client-supplied total_amount), the stored
total_amount equals quantity * price_per_unit + fees + tax. -/
theorem C1_created_total_amount (input : TxnCreateInput) (userId : ℕ)
    (now : ℤ) (t : Transaction)
    (h : TransactionCreateSerializer.run input userId now = Except.ok t) :
    t.total_amount =
      some (input.quantity * input.price_per_unit + input.fees + input.tax) := by
  unfold TransactionCreateSerializer.run at h
  split at h
  · exact Except.noConfusion h
  · split at h
    · exact Except.noConfusion h
    · cases h
      simp [Transaction.save, truthyQ]

/-- C1 witness: the pipeline on txnInC1 stores total_amount
2 * 10 + 1 + 0 = 21. -/
theorem C1_witness :
    txnOutC1.total_amount =
      some (txnInC1.quantity * txnInC1.price_per_unit + txnInC1.fees + txnInC1.tax) :=
  C1_created_total_amount txnInC1 1 0 txnOutC1 (by rfl)

/-- C2 counterexample: assetC2 has both day fields set with
day_high = 0 strictly below day_low = 1, yet Asset.clean accepts it (the
truthiness test `if self.day_high and ...` skips a zero day_high), so the
claim that every such asset is rejected is false. -/
theorem C2_counterexample :
    assetC2.day_high = some 0 ∧ assetC2.day_low = some 1 ∧
    (0 : ℚ) < 1 ∧ Asset.clean assetC2 = Except.ok () := by
  refine ⟨rfl, rfl, by norm_num, rfl⟩

/-- C2 (amended): for every asset whose day_high and day_low are both set
and nonzero, validation rejects day_high < day_low with the day-high
validation error. -/
theorem C2_day_high_ge_day_low (a : Asset) (h l : ℚ)
    (hh : a.day_high = some h) (hl : a.day_low = some l)
    (hh0 : h ≠ 0) (hl0 : l ≠ 0) (hlt : h < l) :
    Asset.clean a = Except.error AssetCleanError.dayHighLessThanDayLow := by
  unfold Asset.clean
  rw [hh, hl]
  simp [truthyQ, hh0, hl0, hlt]

/-- C2 witness: an asset with day_high 1 < day_low 2 (both nonzero) is
rejected. -/
theorem C2_witness :
    Asset.clean assetC2w = Except.error AssetCleanError.dayHighLessThanDayLow :=
  C2_day_high_ge_day_low assetC2w 1 2 rfl rfl (by norm_num) (by norm_num)
    (by norm_num)

/-- C5: creating a transaction with quantity ≤ 0 fails validation with the
quantity error, so no transaction record is created (the pipeline returns
an error, not a row). -/
theorem C5_zero_quantity_rejected (input : TxnCreateInput) (userId : ℕ)
    (now : ℤ) (h : input.quantity ≤ 0) :
    TransactionCreateSerializer.run input userId now =
      Except.error TxnCreateError.quantityNotPositive := by
  unfold TransactionCreateSerializer.run
  simp [h]

/-- C5 witness: a create request with quantity 0 is rejected. -/
theorem C5_witness :
    TransactionCreateSerializer.run txnInC5 1 0 =
      Except.error TxnCreateError.quantityNotPositive :=
  C5_zero_quantity_rejected txnInC5 1 0 (by decide)

/-- C6: category validation accepts a category exactly when its parent is
not the category itself, so no stored (clean-validated) category is its
own parent. -/
theorem C6_category_not_own_parent (c : AssetCategory) :
    AssetCategory.clean c = Except.ok () ↔ c.parent ≠ some c.id := by
  unfold AssetCategory.clean
  split_ifs with h
  · simp [h]
  · simp [h]

/-- A pending LIMIT transaction with no limit price and past date. -/
def txnC3 : Transaction :=
  { id := 0, created_at := 0, updated_at := 0, is_active := true, user := 1,
    asset := 1, transaction_type := "BUY", quantity := 1, price_per_unit := 10,
    total_amount := some 10, fees := 0, tax := 0, order_type := "LIMIT",
    limit_price := none, stop_price := none, status := "PENDING",
    transaction_date := 0, settlement_date := none, notes := "",
    external_id := "", broker := "" }

/-- A MARKET transaction dated at time 5. -/
def txnC4 : Transaction :=
  { txnC3 with order_type := "MARKET", transaction_date := 5 }

/-- C3: when the optional prices respect their field validators
(MinValueValidator(0.01), so a present price is at least 1/100),
Transaction.clean raises a required-price validation error exactly when a
conditionally required price is missing: limit_price for LIMIT and
STOP_LIMIT orders, stop_price for STOP and STOP_LIMIT orders; other order
types need neither. -/
theorem C3_conditional_prices (t : Transaction) (now : ℤ)
    (hlv : ∀ x : ℚ, t.limit_price = some x → 1 / 100 ≤ x)
    (hsv : ∀ x : ℚ, t.stop_price = some x → 1 / 100 ≤ x) :
    (Transaction.clean t now = Except.error TxnCleanError.limitPriceRequired ∨
     Transaction.clean t now = Except.error TxnCleanError.stopPriceRequired) ↔
    (((t.order_type = "LIMIT" ∨ t.order_type = "STOP_LIMIT") ∧
        t.limit_price = none) ∨
     ((t.order_type = "STOP" ∨ t.order_type = "STOP_LIMIT") ∧
        t.stop_price = none)) := by
  have hl2 : truthyQ t.limit_price = false ↔ t.limit_price = none :=
    truthyQ_false_iff hlv
  have hs2 : truthyQ t.stop_price = false ↔ t.stop_price = none :=
    truthyQ_false_iff hsv
  unfold Transaction.clean
  split_ifs with h1 h2 h3
  · simp only [Bool.and_eq_true, Bool.or_eq_true, beq_iff_eq,
      Bool.not_eq_true'] at h1
    exact ⟨fun _ => Or.inl ⟨h1.1, hl2.mp h1.2⟩, fun _ => Or.inl rfl⟩
  · simp only [Bool.and_eq_true, Bool.or_eq_true, beq_iff_eq,
      Bool.not_eq_true'] at h2
    exact ⟨fun _ => Or.inr ⟨h2.1, hs2.mp h2.2⟩, fun _ => Or.inr rfl⟩
  · constructor
    · intro hcase
      rcases hcase with hc | hc <;> exact absurd hc (by decide)
    · intro hr
      exfalso
      rcases hr with ⟨ho, hn⟩ | ⟨ho, hn⟩
      · exact h1 (by
          simp only [Bool.and_eq_true, Bool.or_eq_true, beq_iff_eq,
            Bool.not_eq_true']
          exact ⟨ho, hl2.mpr hn⟩)
      · exact h2 (by
          simp only [Bool.and_eq_true, Bool.or_eq_true, beq_iff_eq,
            Bool.not_eq_true']
          exact ⟨ho, hs2.mpr hn⟩)
  · constructor
    · intro hcase
      rcases hcase with hc | hc <;> exact absurd hc (by decide)
    · intro hr
      exfalso
      rcases hr with ⟨ho, hn⟩ | ⟨ho, hn⟩
      · exact h1 (by
          simp only [Bool.and_eq_true, Bool.or_eq_true, beq_iff_eq,
            Bool.not_eq_true']
          exact ⟨ho, hl2.mpr hn⟩)
      · exact h2 (by
          simp only [Bool.and_eq_true, Bool.or_eq_true, beq_iff_eq,
            Bool.not_eq_true']
          exact ⟨ho, hs2.mpr hn⟩)

/-- C3 witness: a LIMIT transaction without a limit price is rejected with
a required-price error. -/
theorem C3_witness :
    Transaction.clean txnC3 0 = Except.error TxnCleanError.limitPriceRequired ∨
    Transaction.clean txnC3 0 = Except.error TxnCleanError.stopPriceRequired :=
  (C3_conditional_prices txnC3 0 (fun _ hx => nomatch hx)
    (fun _ hx => nomatch hx)).mpr (Or.inl ⟨Or.inl rfl, rfl⟩)

/-- C4: a transaction dated strictly after the current time fails
validation (clean does not succeed); one dated at or before the current
time passes the date check (clean never reports futureDate), and the
futureDate error only arises for a future date. -/
theorem C4_no_future_date (t : Transaction) (now : ℤ) :
    (Transaction.clean t now = Except.error TxnCleanError.futureDate →
      now < t.transaction_date) ∧
    (now < t.transaction_date → Transaction.clean t now ≠ Except.ok ()) ∧
    (t.transaction_date ≤ now →
      Transaction.clean t now ≠ Except.error TxnCleanError.futureDate) := by
  unfold Transaction.clean
  split_ifs with h1 h2 h3 <;>
    refine ⟨fun hh => ?_, fun hh => ?_, fun hh hc => ?_⟩ <;>
    simp_all <;> omega

/-- C4 witness: txnC4 (dated 5) fails validation at time 3 and is not
flagged as future at time 7. -/
theorem C4_witness :
    Transaction.clean txnC4 3 ≠ Except.ok () ∧
    Transaction.clean txnC4 7 ≠ Except.error TxnCleanError.futureDate :=
  ⟨(C4_no_future_date txnC4 3).2.1 (by decide),
   (C4_no_future_date txnC4 7).2.2 (by decide)⟩

/-- C7: the transaction summary computes total_volume as the sum of
total_amount over the requesting user's active COMPLETED transactions,
buy_volume and sell_volume as the same sum restricted to BUY and SELL,
and net_volume as buy_volume minus sell_volume. -/
theorem C7_transaction_summary (db : List Transaction) (u : ℕ) :
    (transactionSummary db u).total_volume =
      aggSumTotal (db.filter fun t =>
        (t.user == u && t.is_active) && t.status == "COMPLETED") ∧
    (transactionSummary db u).buy_volume =
      aggSumTotal (db.filter fun t =>
        ((t.user == u && t.is_active) && t.status == "COMPLETED")
          && t.transaction_type == "BUY") ∧
    (transactionSummary db u).sell_volume =
      aggSumTotal (db.filter fun t =>
        ((t.user == u && t.is_active) && t.status == "COMPLETED")
          && t.transaction_type == "SELL") ∧
    (transactionSummary db u).net_volume =
      (transactionSummary db u).buy_volume
        - (transactionSummary db u).sell_volume := by
  unfold transactionSummary
  simp only [filter_filter_swap]
  exact ⟨trivial, trivial, trivial, trivial⟩

/-- A database exception (module outside rest_framework). -/
def excDb : Exc :=
  { module := "django.db.utils", message := "IntegrityError" }

/-- A well-formed create request: 1 unit at price 10, MARKET order. -/
def txnInC8 : TxnCreateInput :=
  { txnInC1 with quantity := 1, fees := 0 }

/-- C8 counterexample: a database exception raised while creating a
transaction is neither a validation nor a permission error, yet the
create endpoint answers 400 (its blanket `except Exception` handler), not
a generic 500, so the claim that every unexpected exception is converted
to a 500 response is false. -/
theorem C8_counterexample :
    excIsRestFramework excDb = false ∧
    TransactionViewSet.create txnInC8 1 0 (some excDb) =
      { status := 400, error := some "Failed to record transaction" } := by
  constructor
  · rfl
  · rfl

/-- C8 (amended): unexpected (non-rest_framework) exceptions that reach
the middleware are logged and converted to a generic 500 response, and
validation errors surface as 400 responses; however, exceptions raised
inside the transaction create endpoint are caught there and returned as a
400 response instead of a 500. -/
theorem C8_error_handling (e : Exc) (input : TxnCreateInput) (userId : ℕ)
    (now : ℤ) :
    (excIsRestFramework e = false →
      ErrorHandlingMiddleware.process_exception e =
        (["Unhandled exception: " ++ e.message],
          some { status := 500, error := some "An unexpected error occurred" })) ∧
    (∀ err, TransactionCreateSerializer.run input userId now = Except.error err →
      TransactionViewSet.create input userId now none =
        { status := 400, error := some "Failed to record transaction" }) ∧
    (∀ exc : Exc, TransactionViewSet.create input userId now (some exc) =
      { status := 400, error := some "Failed to record transaction" }) := by
  refine ⟨fun h => ?_, fun err h => ?_, fun exc => ?_⟩
  · unfold ErrorHandlingMiddleware.process_exception
    simp [h]
  · unfold TransactionViewSet.create
    rw [h]
  · unfold TransactionViewSet.create
    cases hr : TransactionCreateSerializer.run input userId now <;> simp [hr]

/-- C8 witness: the middleware turns the database exception into a logged
generic 500; a create request with zero quantity is answered 400; a
database failure during create is answered 400. -/
theorem C8_witness :
    ErrorHandlingMiddleware.process_exception excDb =
      (["Unhandled exception: IntegrityError"],
        some { status := 500, error := some "An unexpected error occurred" }) ∧
    TransactionViewSet.create txnInC5 1 0 none =
      { status := 400, error := some "Failed to record transaction" } ∧
    TransactionViewSet.create txnInC8 2 0 (some excDb) =
      { status := 400, error := some "Failed to record transaction" } :=
  ⟨(C8_error_handling excDb txnInC5 1 0).1 rfl,
   (C8_error_handling excDb txnInC5 1 0).2.1 TxnCreateError.quantityNotPositive
     (by rfl),
   (C8_error_handling excDb txnInC8 2 0).2.2 excDb⟩

/-- An asset with day range [5, 10]. -/
def assetC9 : Asset :=
  { assetC2 with day_high := some 10, day_low := some 5 }

/-- After update_price with update_high_low, day_high is the new price
when the old one was falsy or below it, and is unchanged otherwise. -/
theorem update_price_day_high_char (a : Asset) (p : ℚ) (now : ℤ) :
    (Asset.update_price a p now true).day_high =
      (if !truthyQ a.day_high || decide (a.day_high.getD 0 < p) then some p
       else a.day_high) := by
  simp only [Asset.update_price, eq_self_iff_true, if_true]
  split_ifs <;> rfl

/-- After update_price with update_high_low, day_low is the new price
when the old one was falsy or above it, and is unchanged otherwise. -/
theorem update_price_day_low_char (a : Asset) (p : ℚ) (now : ℤ) :
    (Asset.update_price a p now true).day_low =
      (if !truthyQ a.day_low || decide (p < a.day_low.getD 0) then some p
       else a.day_low) := by
  simp only [Asset.update_price, eq_self_iff_true, if_true]
  split_ifs <;> rfl

/-- C9: update_price with a positive price and update_high_low leaves
current_price at the new price, keeps the new price between day_low and
day_high whenever those are set afterwards, records the update time, and
persists only the four price fields: every other field of the stored row
is unchanged. -/
theorem C9_update_price_effect (a : Asset) (p : ℚ) (now : ℤ) (hp : 0 < p) :
    (a.updatePriceAndSave p now).current_price = p ∧
    (a.updatePriceAndSave p now).price_last_updated = some now ∧
    (∀ h, (a.updatePriceAndSave p now).day_high = some h → p ≤ h) ∧
    (∀ l, (a.updatePriceAndSave p now).day_low = some l → l ≤ p) ∧
    (a.updatePriceAndSave p now).id = a.id ∧
    (a.updatePriceAndSave p now).created_at = a.created_at ∧
    (a.updatePriceAndSave p now).updated_at = a.updated_at ∧
    (a.updatePriceAndSave p now).is_active = a.is_active ∧
    (a.updatePriceAndSave p now).name = a.name ∧
    (a.updatePriceAndSave p now).symbol = a.symbol ∧
    (a.updatePriceAndSave p now).asset_type = a.asset_type ∧
    (a.updatePriceAndSave p now).category = a.category ∧
    (a.updatePriceAndSave p now).description = a.description ∧
    (a.updatePriceAndSave p now).company_name = a.company_name ∧
    (a.updatePriceAndSave p now).website_url = a.website_url ∧
    (a.updatePriceAndSave p now).currency = a.currency ∧
    (a.updatePriceAndSave p now).market_cap = a.market_cap ∧
    (a.updatePriceAndSave p now).risk_level = a.risk_level ∧
    (a.updatePriceAndSave p now).beta = a.beta ∧
    (a.updatePriceAndSave p now).dividend_yield = a.dividend_yield ∧
    (a.updatePriceAndSave p now).status = a.status ∧
    (a.updatePriceAndSave p now).exchange = a.exchange ∧
    (a.updatePriceAndSave p now).isin = a.isin := by
  refine ⟨?_, ?_, ?_, ?_, rfl, rfl, rfl, rfl, rfl, rfl, rfl, rfl, rfl, rfl,
    rfl, rfl, rfl, rfl, rfl, rfl, rfl, rfl, rfl⟩
  · show (Asset.update_price a p now true).current_price = p
    simp only [Asset.update_price, eq_self_iff_true, if_true]
    split_ifs <;> rfl
  · show (Asset.update_price a p now true).price_last_updated = some now
    simp only [Asset.update_price, eq_self_iff_true, if_true]
    split_ifs <;> rfl
  · show ∀ h, (Asset.update_price a p now true).day_high = some h → p ≤ h
    intro h hsome
    rw [update_price_day_high_char] at hsome
    split_ifs at hsome with hc
    · exact le_of_eq (Option.some.inj hsome)
    · rcases hq : a.day_high with _ | v
      · rw [hq] at hc
        simp [truthyQ] at hc
      · rw [hq] at hsome hc
        have hvh : v = h := Option.some.inj hsome
        subst hvh
        simp only [truthyQ, Option.getD_some, Bool.or_eq_true,
          Bool.not_eq_true', decide_eq_true_eq, not_or, not_lt] at hc
        exact hc.2
  · show ∀ l, (Asset.update_price a p now true).day_low = some l → l ≤ p
    intro l hsome
    rw [update_price_day_low_char] at hsome
    split_ifs at hsome with hc
    · exact le_of_eq (Option.some.inj hsome).symm
    · rcases hq : a.day_low with _ | v
      · rw [hq] at hc
        simp [truthyQ] at hc
      · rw [hq] at hsome hc
        have hvl : v = l := Option.some.inj hsome
        subst hvl
        simp only [truthyQ, Option.getD_some, Bool.or_eq_true,
          Bool.not_eq_true', decide_eq_true_eq, not_or, not_lt] at hc
        exact hc.2

/-- C9 witness: updating assetC9 to price 3 at time 7 sets current_price
to 3 and leaves the symbol unchanged. -/
theorem C9_witness :
    (assetC9.updatePriceAndSave 3 7).current_price = 3 ∧
    (assetC9.updatePriceAndSave 3 7).symbol = assetC9.symbol :=
  ⟨(C9_update_price_effect assetC9 3 7 (by norm_num)).1,
   (C9_update_price_effect assetC9 3 7 (by norm_num)).2.2.2.2.2.2.2.2.2.1⟩

/-- The all-graphs payload attached when no specific graph is requested. -/
def allGraphsList {α : Type} (g : GraphOutputs α) : List (String × α) :=
  [("user_growth", g.user_growth), ("asset_distribution", g.asset_distribution),
   ("transaction_volume", g.transaction_volume),
   ("portfolio_performance", g.portfolio_performance),
   ("asset_type_performance", g.asset_type_performance),
   ("top_assets", g.top_assets), ("transaction_trends", g.transaction_trends)]

/-- A graph-outputs environment with unit payloads, for concrete runs. -/
def gZero : GraphOutputs ℕ :=
  { user_growth := 0, asset_distribution := 0, transaction_volume := 0,
    portfolio_performance := 0, asset_type_performance := 0, top_assets := 0,
    transaction_trends := 0 }

/-- C10 counterexample: with days = 30 in range and graph_type supplied as
the empty string — which is not one of the seven known graph types — the
endpoint answers 200 with all graphs, not 400 (`if graph_type:` treats the
empty string as absent), so the claim that a 400 is returned exactly when
the supplied graph_type is unknown is false. -/
theorem C10_counterexample :
    (AnalyticsViewSet.graphs 30 (some "") gZero (0 : ℕ)).1 = 200 ∧
    "" ∉ knownGraphTypes ∧ (1 : ℤ) ≤ 30 ∧ (30 : ℤ) ≤ 365 := by
  refine ⟨rfl, by decide, by norm_num, by norm_num⟩

/-- C10 (amended): the graphs endpoint returns 400 exactly when the
integer days parameter lies outside 1..365 or a non-empty graph_type
outside the seven known types is supplied; any other response is a 200
carrying the summary block, with the data holding the requested graph for
a recognised graph_type and all seven graphs when graph_type is absent or
empty. -/
theorem C10_graphs_routing {α σ : Type} (days : ℤ) (gt : Option String)
    (g : GraphOutputs α) (s : σ) :
    ((AnalyticsViewSet.graphs days gt g s).1 = 400 ↔
      (days < 1 ∨ 365 < days ∨
        ∃ t, gt = some t ∧ t ≠ "" ∧ t ∉ knownGraphTypes)) ∧
    ((AnalyticsViewSet.graphs days gt g s).1 ≠ 400 →
      (AnalyticsViewSet.graphs days gt g s).1 = 200 ∧
      (AnalyticsViewSet.graphs days gt g s).2.summary = some s) ∧
    (∀ t x, gt = some t → selectGraph t g = some x →
      ¬(days < 1 ∨ 365 < days) →
      (AnalyticsViewSet.graphs days gt g s).2.data = [(t, x)]) ∧
    ((gt = none ∨ gt = some "") → ¬(days < 1 ∨ 365 < days) →
      (AnalyticsViewSet.graphs days gt g s).2.data = allGraphsList g) := by
  refine ⟨?_, ?_, ?_, ?_⟩
  · unfold AnalyticsViewSet.graphs
    by_cases hd : days < 1 ∨ 365 < days
    · simp [hd]
      tauto
    · obtain ⟨hd1, hd2⟩ := not_or.mp hd
      rw [if_neg hd]
      cases gt with
      | none => simp [hd1, hd2]
      | some t =>
        by_cases hte : t = ""
        · subst hte
          simp [hd1, hd2]
        · simp only [Option.getD_some]
          rw [if_pos hte]
          split_ifs with h1 h2 h3 h4 h5 h6 h7 <;>
            simp_all [knownGraphTypes]
  · unfold AnalyticsViewSet.graphs
    by_cases hd : days < 1 ∨ 365 < days
    · rw [if_pos hd]
      intro h
      exact absurd rfl h
    · rw [if_neg hd]
      cases gt with
      | none => exact fun _ => ⟨rfl, rfl⟩
      | some t =>
        by_cases hte : t = ""
        · subst hte
          exact fun _ => ⟨rfl, rfl⟩
        · simp only [Option.getD_some]
          rw [if_pos hte]
          split_ifs with h1 h2 h3 h4 h5 h6 h7
          · exact fun _ => ⟨rfl, rfl⟩
          · exact fun _ => ⟨rfl, rfl⟩
          · exact fun _ => ⟨rfl, rfl⟩
          · exact fun _ => ⟨rfl, rfl⟩
          · exact fun _ => ⟨rfl, rfl⟩
          · exact fun _ => ⟨rfl, rfl⟩
          · exact fun _ => ⟨rfl, rfl⟩
          · intro h
            exact absurd rfl h
  · intro t x hgt hsel hnd
    subst hgt
    unfold AnalyticsViewSet.graphs
    rw [if_neg hnd]
    by_cases hte : t = ""
    · subst hte
      simp [selectGraph] at hsel
    · simp only [Option.getD_some]
      rw [if_pos hte]
      split_ifs with h1 h2 h3 h4 h5 h6 h7 <;>
        simp_all [selectGraph]
  · intro hgt hnd
    unfold AnalyticsViewSet.graphs
    rw [if_neg hnd]
    rcases hgt with hgt | hgt <;> subst hgt
    · rfl
    · rfl

/-- C10 witness: days = 400 is answered 400; a valid request for
top_assets is answered 200 with that graph and the summary. -/
theorem C10_witness :
    (AnalyticsViewSet.graphs 400 none gZero (5 : ℕ)).1 = 400 ∧
    (AnalyticsViewSet.graphs 30 (some "top_assets") gZero (5 : ℕ)).2.data =
      [("top_assets", gZero.top_assets)] ∧
    (AnalyticsViewSet.graphs 30 (some "top_assets") gZero (5 : ℕ)).2.summary =
      some 5 :=
  ⟨(C10_graphs_routing 400 none gZero 5).1.mpr (Or.inr (Or.inl (by norm_num))),
   (C10_graphs_routing 30 (some "top_assets") gZero 5).2.2.1 "top_assets"
     gZero.top_assets rfl rfl (by norm_num),
   ((C10_graphs_routing 30 (some "top_assets") gZero 5).2.1 (by decide)).2⟩

end AssetsMgmt
